import Mathlib

/-
Verification development for the credential/sub-account core of
bfx-reports-framework:

  src/workers/loc.api/sync/authenticator/index.js   (class Authenticator)
  src/workers/loc.api/sync/sub.account/index.js     (class SubAccount)

The JavaScript code is shallowly embedded below.  External collaborators
(the DAO, the crypto facade, the upstream exchange lookup, and the
authenticator methods invoked from the SubAccount class) are modelled as
oracle functions collected in an `Env` record; every modelled method also
returns a trace of the collaborator calls it performed (`List Eff`), so
that statements such as "rejected without consulting storage or crypto"
or "exactly one row inserted" are expressible.

JavaScript value conventions used throughout:
  * a field that in JS holds a string, `undefined`, `null` or a non-string
    value is modelled as `Option String`: `some s` is a string value
    (possibly empty), `none` is absent / non-string;
  * the JS check `x && typeof x === 'string'` is `truthy x`;
  * `===` comparison of two possibly-undefined fields is decidable
    equality on `Option String` (undefined === undefined is true);
  * a numeric surrogate key `_id` is `Option Int`: `some k` is an integer
    (`Number.isInteger` true), `none` is absent or non-integer;
  * a fallible `await` of a collaborator is `Except Err A`.
-/

namespace BRF

/-- Error kinds raised by the modelled code (AuthError from bfx-report,
the sub-account errors from ../../errors, and a JS TypeError for a
property access on undefined). -/
inductive Err where
  | authError
  | subAccountCreatingError
  | subAccountUpdatingError
  | userRemovingError
  | typeError
  | otherError
deriving DecidableEq, Repr

/-- Truthiness of a JS string-or-absent value: a non-empty string. -/
def truthy : Option String → Bool
  | some s => !(s == "")
  | none => false

/-- ASCII lowercase letter, the regex class [a-z]. -/
def isLowerA (c : Char) : Bool := 'a' ≤ c && c ≤ 'z'

/-- ASCII uppercase letter, the regex class [A-Z]. -/
def isUpperA (c : Char) : Bool := 'A' ≤ c && c ≤ 'Z'

/-- ASCII digit, the regex class \d. -/
def isDigitA (c : Char) : Bool := '0' ≤ c && c ≤ '9'

/-- ASCII alphanumeric, the regex class [a-zA-Z\d]. -/
def isAlnumA (c : Char) : Bool := isLowerA c || isUpperA c || isDigitA c

/-- Authenticator.passRegEx:
`^(?=.*[a-z])(?=.*[A-Z])(?=.*\d)[a-zA-Z\d]{8,}$` applied by
Authenticator.isSecurePassword.  The anchored body `[a-zA-Z\d]{8,}$`
accepts exactly the strings of length at least 8 made only of ASCII
alphanumerics (JS `$` matches only the true end of input), and on such
strings the three lookaheads demand one lowercase letter, one uppercase
letter and one digit. -/
def isSecurePassword (p : String) : Bool :=
  decide (8 ≤ p.length) &&
  p.data.all isAlnumA &&
  p.data.any isLowerA &&
  p.data.any isUpperA &&
  p.data.any isDigitA

/-- A stored identity row as returned by the DAO (the fields the modelled
code touches). -/
structure DbUser where
  _id : Option Int := none
  id : Option Int := none
  email : Option String := none
  timezone : Option String := none
  username : Option String := none
  apiKey : Option String := none
  apiSecret : Option String := none
  passwordHash : Option String := none
  isSubAccount : Bool := false
deriving DecidableEq, Repr

/-- lodash `pick` specialised to a DbUser: keeps exactly the fields whose
names occur in the props list (a missing field reads as undefined / false). -/
def pickDbUser (props : List String) (u : DbUser) : DbUser where
  _id := if props.contains "_id" then u._id else none
  id := if props.contains "id" then u.id else none
  email := if props.contains "email" then u.email else none
  timezone := if props.contains "timezone" then u.timezone else none
  username := if props.contains "username" then u.username else none
  apiKey := if props.contains "apiKey" then u.apiKey else none
  apiSecret := if props.contains "apiSecret" then u.apiSecret else none
  passwordHash := if props.contains "passwordHash" then u.passwordHash else none
  isSubAccount := if props.contains "isSubAccount" then u.isSubAccount else false

/-- Authenticator.excludeProps on a single possibly-absent user object:
returns the data unchanged when props is not an array or is empty,
otherwise picks the listed fields. -/
def excludeProps (props : Option (List String)) (u : Option DbUser) :
    Option DbUser :=
  match props with
  | none => u
  | some ps => if ps.isEmpty then u else u.map (pickDbUser ps)

/-- Payload recovered from a verified token: { _id, email, encryptedPassword }. -/
structure JwtPayload where
  _id : Option Int := none
  email : Option String := none
  encryptedPassword : Option String := none
deriving DecidableEq, Repr

/-- Profile data returned by rService.checkAuthInApi for a credential pair. -/
structure ApiProfile where
  id : Option Int := none
  timezone : Option String := none
  username : Option String := none
  email : Option String := none
deriving DecidableEq, Repr

/-- The profile patch written by signIn into the users table. -/
structure ProfilePatch where
  id : Option Int := none
  timezone : Option String := none
  username : Option String := none
  email : Option String := none
  active : Bool := true
  isDataFromDb : Bool := true
deriving DecidableEq, Repr

/-- Result object of dao.updateCollBy / dao.removeElemsFromDb: carries the
number of affected rows. -/
structure Changes where
  changes : Int
deriving DecidableEq, Repr

/-- Filter argument of Authenticator.getUser: either { email } or
{ _id, email }. -/
inductive GetFilter where
  | byEmail (email : Option String)
  | byIdEmail (_id : Option Int) (email : Option String)
deriving DecidableEq, Repr

/-- Params object of Authenticator.getUser (fields absent in the JS call
are none). -/
structure GetParams where
  isNotSubAccount : Option Bool := none
  isSubAccount : Option Bool := none
  isFilledSubUsers : Option Bool := none
  password : Option String := none
deriving DecidableEq, Repr

/-- Data row inserted by Authenticator.createUser. -/
structure UserData where
  email : Option String := none
  timezone : Option String := none
  username : Option String := none
  id : Option Int := none
  apiKey : Option String := none
  apiSecret : Option String := none
  active : Bool := true
  isDataFromDb : Bool := true
  passwordHash : Option String := none
deriving DecidableEq, Repr

/-- A user object flowing through the SubAccount class (the master user
projection, an entry of subAccountUser.subUsers, or a signUp result with
isReturnedFullUserData). -/
structure UserObj where
  _id : Option Int := none
  id : Option Int := none
  email : Option String := none
  apiKey : Option String := none
  apiSecret : Option String := none
  password : Option String := none
  token : Option String := none
deriving DecidableEq, Repr

/-- The signed-in sub-account user inside SubAccount.updateSubAccount
(signIn with isReturnedUser). -/
structure SAUser where
  _id : Option Int := none
  id : Option Int := none
  email : Option String := none
  apiKey : Option String := none
  apiSecret : Option String := none
  password : Option String := none
  token : Option String := none
  subUsers : Option (List UserObj) := none
deriving DecidableEq, Repr

/-- One auth entry of a desired sub-credential list (an element of
params.subAccountApiKeys, or the master user appended to it). -/
structure AuthEntry where
  apiKey : Option String := none
  apiSecret : Option String := none
  password : Option String := none
  email : Option String := none
  token : Option String := none
deriving DecidableEq, Repr

/-- Collaborator calls recorded by the modelled methods.  Entries are
split into reads and writes by Eff.isWrite below. -/
inductive Eff where
  | getUserByEmail (email : Option String) (password : Option String)
  | getUserByIdEmail (_id : Option Int) (email : Option String)
  | verifyJWT (tok : String)
  | decryptPwd
  | verifyPwd (hash : Option String)
  | checkAuthInApi (apiKey apiSecret : Option String)
  | updateUsersProfile (_id : Option Int) (patch : ProfilePatch)
  | updateUsersActive (_id : Option Int) (active : Bool)
  | encryptVal
  | hashPwd
  | insertUsers (email : Option String)
  | signJWT (_id : Option Int) (email encPwd : Option String)
  | setSession (_id : Option Int) (email jwt : Option String)
  | verifyMasterCall
  | verifySubAuthCall (email token : Option String)
  | signUpAggregateCall
  | signUpSubCall (apiKey apiSecret : Option String)
  | insertSubAccountRow (masterId subId : Option Int)
  | removeUsersRows (ids : List (Option Int))
  | updateLedgersFlag (userId : Option Int)
  | signInSACall
deriving DecidableEq, Repr

/-- Whether a recorded collaborator call mutates storage (or is a signUp,
which inserts a row internally). -/
def Eff.isWrite : Eff → Bool
  | .updateUsersProfile _ _ => true
  | .updateUsersActive _ _ => true
  | .insertUsers _ => true
  | .signUpAggregateCall => true
  | .signUpSubCall _ _ => true
  | .insertSubAccountRow _ _ => true
  | .removeUsersRows _ => true
  | .updateLedgersFlag _ => true
  | _ => false

/-- The oracle environment: DAO operations, the crypto facade, the
upstream exchange lookup, the isSubAccountApiKeys helper, and — for the
SubAccount class — the authenticator methods it calls (those run against
a different authenticator revision than the one under src, so they are
kept abstract here and only the SubAccount control flow is concrete).
Oracles are pure functions of their arguments. -/
structure Env where
  secretKey : String
  getUser : GetFilter → GetParams → Except Err (Option DbUser)
  verifyJWT : String → Except Err JwtPayload
  decrypt : Option String → String → Except Err String
  verifyPassword : Option String → Option String → Except Err Unit
  checkAuthInApi : Option String → Option String → Except Err ApiProfile
  updateUsersProfile :
    Option Int → Option String → ProfilePatch → Except Err (Option Changes)
  updateUsersActive :
    Option Int → Option String → Bool → Except Err (Option Changes)
  generateJWT : Option Int → Option String → Option String → Except Err String
  encrypt : Option String → String → Except Err String
  hashPassword : Option String → Except Err String
  insertUsers : UserData → Except Err Unit
  isSAKeys : Option String → Option String → Bool
  verifyMaster : AuthEntry → Except Err UserObj
  verifySubAuth :
    Option String → Option String → Option String → Except Err UserObj
  signUpAggregate : UserObj → Option String → Except Err UserObj
  signUpSub : UserObj → Option String → Option Int → Bool → Except Err UserObj
  signInSA : AuthEntry → Except Err SAUser
  insertSubAccountRow : Option Int → Option Int → Except Err Unit
  removeUsersRows : List (Option Int) → Except Err (Option Changes)
  updateLedgersFlag : Option Int → Except Err (Option Changes)

/-- Auth object of verifyUser / signIn / signOut. -/
structure VAuth where
  email : Option String := none
  password : Option String := none
  isSubAccount : Bool := false
  jwt : Option String := none
deriving DecidableEq, Repr

/-- Params object of verifyUser. -/
structure VParams where
  projection : Option (List String) := none
  isFilledSubUsers : Bool := false
  isDecryptedApiKeys : Bool := false
  isReturnedPassword : Bool := false
deriving DecidableEq, Repr

/-- Result of verifyUser: the (possibly projected, possibly absent) user
object spread together with the returned password field. -/
structure VUser where
  user : Option DbUser := none
  password : Option String := none
deriving DecidableEq, Repr

/-- Authenticator.verifyUser (authenticator/index.js lines 247-331).
First branch: email and password both non-empty strings — the password
path; second branch: jwt a non-empty string — the token path; otherwise
AuthError with no collaborator consulted. -/
def verifyUser (env : Env) (a : VAuth) (ps : VParams) :
    List Eff × Except Err VUser :=
  if truthy a.email && truthy a.password then
    let pwdArg := if ps.isDecryptedApiKeys then a.password else none
    let gp : GetParams :=
      { isNotSubAccount := some (!a.isSubAccount)
        isSubAccount := some a.isSubAccount
        isFilledSubUsers := some ps.isFilledSubUsers
        password := pwdArg }
    match env.getUser (.byEmail a.email) gp with
    | .error e => ([.getUserByEmail a.email pwdArg], .error e)
    | .ok uOpt =>
      let passwordHash := uOpt.bind (·.passwordHash)
      let user := excludeProps ps.projection uOpt
      match env.verifyPassword a.password passwordHash with
      | .error e =>
        ([.getUserByEmail a.email pwdArg, .verifyPwd passwordHash], .error e)
      | .ok _ =>
        ([.getUserByEmail a.email pwdArg, .verifyPwd passwordHash],
          .ok { user
                password := if ps.isReturnedPassword then a.password else none })
  else if truthy a.jwt then
    match a.jwt with
    | none => ([], .error .authError)
    | some tok =>
      match env.verifyJWT tok with
      | .error e => ([.verifyJWT tok], .error e)
      | .ok pl =>
        match env.decrypt pl.encryptedPassword env.secretKey with
        | .error e => ([.verifyJWT tok, .decryptPwd], .error e)
        | .ok decryptedPassword =>
          let pwdArg :=
            if ps.isDecryptedApiKeys then some decryptedPassword else none
          let gp : GetParams :=
            { isFilledSubUsers := some ps.isFilledSubUsers, password := pwdArg }
          match env.getUser (.byIdEmail pl._id pl.email) gp with
          | .error e =>
            ([.verifyJWT tok, .decryptPwd, .getUserByIdEmail pl._id pl.email],
              .error e)
          | .ok uOpt =>
            let passwordHash := uOpt.bind (·.passwordHash)
            match env.verifyPassword (some decryptedPassword) passwordHash with
            | .error e =>
              ([.verifyJWT tok, .decryptPwd,
                .getUserByIdEmail pl._id pl.email, .verifyPwd passwordHash],
                .error e)
            | .ok _ =>
              let pwd :=
                if ps.isReturnedPassword then some decryptedPassword else none
              let vu : VUser :=
                match ps.projection with
                | none => { user := uOpt, password := pwd }
                | some pr =>
                  if pr.isEmpty then { user := uOpt, password := pwd }
                  else
                    { user := uOpt.map (pickDbUser pr)
                      password := if pr.contains "password" then pwd else none }
              ([.verifyJWT tok, .decryptPwd,
                .getUserByIdEmail pl._id pl.email, .verifyPwd passwordHash],
                .ok vu)
  else ([], .error .authError)

/-- Payload argument of generateAuthJWT. -/
structure JwtGenPayload where
  _id : Option Int := none
  email : Option String := none
  encryptedPassword : Option String := none
  password : Option String := none
  jwt : Option String := none
deriving DecidableEq, Repr

/-- Authenticator.generateAuthJWT (authenticator/index.js lines 526-569).
With a non-empty email: sign a token from the encrypted password blob if
present, else encrypt a plaintext password under the process secret and
sign, else AuthError.  Without an email: pass an existing jwt string
through unchanged, else AuthError. -/
def generateAuthJWT (env : Env) (p : JwtGenPayload) :
    List Eff × Except Err String :=
  if truthy p.email then
    if truthy p.encryptedPassword then
      ([.signJWT p._id p.email p.encryptedPassword],
        env.generateJWT p._id p.email p.encryptedPassword)
    else if truthy p.password then
      match env.encrypt p.password env.secretKey with
      | .error e => ([.encryptVal], .error e)
      | .ok enc =>
        ([.encryptVal, .signJWT p._id p.email (some enc)],
          env.generateJWT p._id p.email (some enc))
    else ([], .error .authError)
  else
    match p.jwt with
    | some j => if j == "" then ([], .error .authError) else ([], .ok j)
    | none => ([], .error .authError)

/-- A session cache entry: { _id, email, jwt }. -/
structure SessEntry where
  _id : Option Int := none
  email : Option String := none
  jwt : Option String := none
deriving DecidableEq, Repr

/-- The in-process session map, keyed by _id, preserving insertion order
(JS Map semantics). -/
abbrev Sessions := List (Option Int × SessEntry)

/-- The zero-change test `res && res.changes < 1` used by signIn, signOut
and updateSubAccount: true exactly when the storage call returned a
result object reporting fewer than one affected row. -/
def zeroChanges : Option Changes → Bool
  | some c => decide (c.changes < 1)
  | none => false

/-- Authenticator.setUserSession: Map.set — overwrite in place when the
key exists, else append. -/
def setSession (ss : Sessions) (e : SessEntry) : Sessions :=
  if (ss.map Prod.fst).contains e._id then
    ss.map (fun kv => if kv.1 == e._id then (kv.1, e) else kv)
  else ss ++ [(e._id, e)]

/-- Map.get on the session cache. -/
def getSession (ss : Sessions) (k : Option Int) : Option SessEntry :=
  (ss.find? (fun kv => kv.1 == k)).map Prod.snd

/-- Authenticator.removeUserSessionById: Map.delete. -/
def removeSession (ss : Sessions) (k : Option Int) : Sessions :=
  ss.filter (fun kv => !(kv.1 == k))

/-- Params object of signIn / signOut / signUp. -/
structure SignParams where
  active : Bool := true
  isDataFromDb : Bool := true
deriving DecidableEq, Repr

/-- Result of signIn: { email, isSubAccount, jwt } (isSubAccount read off
the verified user, undefined when the user object was absent). -/
structure SignInRes where
  email : Option String := none
  isSubAccount : Option Bool := none
  jwt : String := ""
deriving DecidableEq, Repr

/-- Authenticator.signIn (authenticator/index.js lines 123-208): verify
the user (password or token path, asking for decrypted keys and the
plaintext password), fetch the fresh upstream profile, write it into the
users row (a reported zero-change update raises AuthError), re-issue or
pass through the token via generateAuthJWT, refresh the session cache,
and return the upstream email with the resulting token. -/
def signIn (env : Env) (a : VAuth) (pp : SignParams) (ss : Sessions) :
    List Eff × Except Err (SignInRes × Sessions) :=
  let vps : VParams := { isDecryptedApiKeys := true, isReturnedPassword := true }
  match verifyUser env a vps with
  | (tr, .error e) => (tr, .error e)
  | (tr, .ok vu) =>
    let uid := vu.user.bind (·._id)
    let emailFromDb := vu.user.bind (·.email)
    let apiKey := vu.user.bind (·.apiKey)
    let apiSecret := vu.user.bind (·.apiSecret)
    match env.checkAuthInApi apiKey apiSecret with
    | .error e => (tr ++ [.checkAuthInApi apiKey apiSecret], .error e)
    | .ok prof =>
      let patch : ProfilePatch :=
        { id := prof.id, timezone := prof.timezone, username := prof.username
          email := prof.email, active := pp.active
          isDataFromDb := pp.isDataFromDb }
      let tr1 := tr ++ [.checkAuthInApi apiKey apiSecret,
        .updateUsersProfile uid patch]
      match env.updateUsersProfile uid emailFromDb patch with
      | .error e => (tr1, .error e)
      | .ok res =>
        if zeroChanges res then
          (tr1, .error .authError)
        else
          let freshEmail :=
            if truthy a.email || !(prof.email == emailFromDb) then prof.email
            else none
          let pl : JwtGenPayload :=
            { _id := uid, email := freshEmail, password := vu.password
              jwt := a.jwt }
          match generateAuthJWT env pl with
          | (trJ, .error e) => (tr1 ++ trJ, .error e)
          | (trJ, .ok resJWT) =>
            let entry : SessEntry :=
              { _id := uid, email := prof.email, jwt := some resJWT }
            (tr1 ++ trJ ++ [.setSession uid prof.email (some resJWT)],
              .ok ({ email := prof.email
                     isSubAccount := vu.user.map (·.isSubAccount)
                     jwt := resJWT },
                setSession ss entry))

/-- Authenticator.signOut (authenticator/index.js lines 210-245): verify
the user, deactivate the row (a reported zero-change update raises
AuthError), drop the session entry, return true. -/
def signOut (env : Env) (a : VAuth) (active : Bool) (ss : Sessions) :
    List Eff × Except Err (Bool × Sessions) :=
  match verifyUser env a {} with
  | (tr, .error e) => (tr, .error e)
  | (tr, .ok vu) =>
    let uid := vu.user.bind (·._id)
    let emailFromDb := vu.user.bind (·.email)
    let tr1 := tr ++ [.updateUsersActive uid active]
    match env.updateUsersActive uid emailFromDb active with
    | .error e => (tr1, .error e)
    | .ok res =>
      if zeroChanges res then
        (tr1, .error .authError)
      else
        (tr1, .ok (true, removeSession ss uid))

/-- Authenticator.createUser (authenticator/index.js lines 446-468):
insert the row, then re-read it by email (isNotSubAccount) and raise
AuthError unless the re-read yields an object whose _id is an integer. -/
def createUser (env : Env) (data : UserData) :
    List Eff × Except Err DbUser :=
  match env.insertUsers data with
  | .error e => ([.insertUsers data.email], .error e)
  | .ok _ =>
    let tr := [Eff.insertUsers data.email,
      .getUserByEmail data.email none]
    match env.getUser (.byEmail data.email) { isNotSubAccount := some true } with
    | .error e => (tr, .error e)
    | .ok none => (tr, .error .authError)
    | .ok (some u) =>
      match u._id with
      | none => (tr, .error .authError)
      | some _ => (tr, .ok u)

/-- Auth object of signUp. -/
structure SignUpAuth where
  apiKey : Option String := none
  apiSecret : Option String := none
  password : Option String := none
deriving DecidableEq, Repr

/-- Result of signUp: { email, isSubAccount, jwt }. -/
structure SignUpRes where
  email : Option String := none
  isSubAccount : Bool := false
  jwt : String := ""
deriving DecidableEq, Repr

/-- The static validation at the top of signUp (authenticator/index.js
lines 55-66): apiKey, apiSecret and password must be non-empty strings,
the password must satisfy the strength regex, and the credential pair
must not look like a sub-account pair. -/
def signUpCheckFails (env : Env) (a : SignUpAuth) : Bool :=
  match a.apiKey, a.apiSecret, a.password with
  | some k, some s, some p =>
    k == "" || s == "" || p == "" || !(isSecurePassword p) ||
      env.isSAKeys a.apiKey a.apiSecret
  | _, _, _ => true

/-- Authenticator.signUp (authenticator/index.js lines 47-121): validate
statically (raising AuthError before any collaborator call on failure),
look the credentials up upstream, refuse emails already registered as a
non-sub-account user, run the four crypto operations, create the user row
via createUser, issue a token, store a session entry. -/
def signUp (env : Env) (a : SignUpAuth) (pp : SignParams) (ss : Sessions) :
    List Eff × Except Err (SignUpRes × Sessions) :=
  if signUpCheckFails env a then ([], .error .authError)
  else
    match env.checkAuthInApi a.apiKey a.apiSecret with
    | .error e => ([.checkAuthInApi a.apiKey a.apiSecret], .error e)
    | .ok prof =>
      let tr1 := [Eff.checkAuthInApi a.apiKey a.apiSecret,
        .getUserByEmail prof.email none]
      match env.getUser (.byEmail prof.email)
          { isNotSubAccount := some true } with
      | .error e => (tr1, .error e)
      | .ok userFromDb =>
        if !(truthy prof.email) ||
            (match userFromDb with
              | some u => u._id.isSome
              | none => false) then
          (tr1, .error .authError)
        else
          let tr2 := tr1 ++ [.encryptVal, .encryptVal, .encryptVal, .hashPwd]
          match env.encrypt a.apiKey (a.password.getD ""),
              env.encrypt a.apiSecret (a.password.getD ""),
              env.encrypt a.password env.secretKey,
              env.hashPassword a.password with
          | .ok encKey, .ok encSecret, .ok encryptedPassword, .ok pwdHash =>
            let data : UserData :=
              { email := prof.email, timezone := prof.timezone
                username := prof.username, id := prof.id
                apiKey := some encKey, apiSecret := some encSecret
                active := pp.active, isDataFromDb := pp.isDataFromDb
                passwordHash := some pwdHash }
            match createUser env data with
            | (trC, .error e) => (tr2 ++ trC, .error e)
            | (trC, .ok u) =>
              let pl : JwtGenPayload :=
                { _id := u._id, email := prof.email
                  encryptedPassword := some encryptedPassword }
              match generateAuthJWT env pl with
              | (trJ, .error e) => (tr2 ++ trC ++ trJ, .error e)
              | (trJ, .ok jwt) =>
                let entry : SessEntry :=
                  { _id := u._id, email := prof.email, jwt := some jwt }
                (tr2 ++ trC ++ trJ ++
                    [.setSession u._id prof.email (some jwt)],
                  .ok ({ email := prof.email
                         isSubAccount := u.isSubAccount, jwt := jwt },
                    setSession ss entry))
          | .error e, _, _, _ => (tr2, .error e)
          | _, .error e, _, _ => (tr2, .error e)
          | _, _, .error e, _ => (tr2, .error e)
          | _, _, _, .error e => (tr2, .error e)

/-- Spread of a user object into an auth entry, as in
`const subUsersAuth = [...subAccountApiKeys, masterUser]` followed by the
loop's destructuring `{ apiKey, apiSecret, password, email, token }`. -/
def toAuthEntry (m : UserObj) : AuthEntry :=
  { apiKey := m.apiKey, apiSecret := m.apiSecret, password := m.password
    email := m.email, token := m.token }

/-- Credential resolution of one desired-list entry (sub.account/index.js
lines 127-160 and 372-405): an entry carrying a non-empty string email or
token is authenticated independently through the authenticator, otherwise
its raw { apiKey, apiSecret } pair is used as given. -/
def resolveEntry (env : Env) (e : AuthEntry) :
    List Eff × Except Err UserObj :=
  if truthy e.email || truthy e.token then
    ([.verifySubAuthCall e.email e.token],
      env.verifySubAuth e.email e.password e.token)
  else ([], .ok { apiKey := e.apiKey, apiSecret := e.apiSecret })

/-- Loop state of SubAccount.createSubAccount: the sub users registered
so far, the master-was-registered flag, and the 1-based entry counter. -/
structure CreateSt where
  subUsers : List UserObj := []
  isSubUserFromMasterCreated : Bool := false
  count : Nat := 0
deriving DecidableEq, Repr

/-- The processing loop of SubAccount.createSubAccount
(sub.account/index.js lines 115-214).  For each entry: resolve its
credentials; reject the whole transaction when the last entry matches the
master's credentials, a sub user with the master's credentials was
already registered, and exactly one sub user has been registered so far;
skip the entry when its resolved pair matches an already registered sub
user; otherwise sign the sub user up under the group vault password and
insert its sub-account link row. -/
def createLoop (env : Env) (master : UserObj) (vaultPwd : Option String)
    (aggId : Option Int) (total : Nat) :
    List AuthEntry → CreateSt → List Eff × Except Err CreateSt
  | [], st => ([], .ok st)
  | e :: rest, st =>
    let count := st.count + 1
    let isLast := total == count
    let checked := truthy e.email || truthy e.token
    let (tr0, authRes) := resolveEntry env e
    match authRes with
    | .error err => (tr0, .error err)
    | .ok auth =>
      if isLast && st.isSubUserFromMasterCreated &&
          master.apiKey == auth.apiKey && master.apiSecret == auth.apiSecret &&
          st.subUsers.length == 1 then
        (tr0, .error .subAccountCreatingError)
      else if st.subUsers.any (fun item =>
          auth.apiKey == item.apiKey && auth.apiSecret == item.apiSecret) then
        let (trR, r) :=
          createLoop env master vaultPwd aggId total rest { st with count }
        (tr0 ++ trR, r)
      else
        match env.signUpSub auth vaultPwd master.id checked with
        | .error err =>
          (tr0 ++ [.signUpSubCall auth.apiKey auth.apiSecret], .error err)
        | .ok subUser =>
          match env.insertSubAccountRow aggId subUser._id with
          | .error err =>
            (tr0 ++ [.signUpSubCall auth.apiKey auth.apiSecret,
              .insertSubAccountRow aggId subUser._id], .error err)
          | .ok _ =>
            let st' : CreateSt :=
              { subUsers := st.subUsers ++ [subUser]
                isSubUserFromMasterCreated :=
                  st.isSubUserFromMasterCreated ||
                    (master.apiKey == subUser.apiKey &&
                      master.apiSecret == subUser.apiSecret)
                count }
            let (trR, r) :=
              createLoop env master vaultPwd aggId total rest st'
            (tr0 ++ [.signUpSubCall auth.apiKey auth.apiSecret,
              .insertSubAccountRow aggId subUser._id] ++ trR, r)

/-- Args of createSubAccount: the master auth plus params
{ subAccountPassword, subAccountApiKeys } (none models a non-array). -/
structure CreateArgs where
  auth : AuthEntry := {}
  subAccountPassword : Option String := none
  subAccountApiKeys : Option (List AuthEntry) := none
deriving DecidableEq, Repr

/-- Result of createSubAccount / updateSubAccount:
{ email, isSubAccount: true, token }. -/
structure SARes where
  email : Option String := none
  isSubAccount : Bool := true
  token : Option String := none
deriving DecidableEq, Repr

/-- SubAccount.createSubAccount (sub.account/index.js lines 34-225):
verify the master, choose the group vault password, reject when the
master pair already looks grouped or the desired list is not a non-empty
array of ungrouped pairs, then — transactionally — register the group
aggregate, process the desired entries followed by the master itself
through createLoop, store the session snapshot and return the aggregate
email and token. -/
def createSubAccount (env : Env) (args : CreateArgs) :
    List Eff × Except Err SARes :=
  match env.verifyMaster args.auth with
  | .error e => ([.verifyMasterCall], .error e)
  | .ok master =>
    let vaultPwd :=
      if truthy args.subAccountPassword then args.subAccountPassword
      else master.password
    let badKeys :=
      env.isSAKeys master.apiKey master.apiSecret ||
        (match args.subAccountApiKeys with
          | none => true
          | some ks =>
            ks.isEmpty || ks.any (fun k => env.isSAKeys k.apiKey k.apiSecret))
    if badKeys then ([.verifyMasterCall], .error .subAccountCreatingError)
    else
      let ks := args.subAccountApiKeys.getD []
      match env.signUpAggregate master vaultPwd with
      | .error e =>
        ([.verifyMasterCall, .signUpAggregateCall], .error e)
      | .ok agg =>
        let entries := ks ++ [toAuthEntry master]
        let (trL, r) :=
          createLoop env master vaultPwd agg._id entries.length entries {}
        match r with
        | .error e =>
          ([.verifyMasterCall, .signUpAggregateCall] ++ trL, .error e)
        | .ok _ =>
          ([.verifyMasterCall, .signUpAggregateCall] ++ trL ++
              [.setSession agg._id agg.email agg.token],
            .ok { email := agg.email, isSubAccount := true
                  token := agg.token })

/-- Loop state of SubAccount.updateSubAccount: the kept-or-added sub
users processed so far and the newly added ones. -/
structure UpdateSt where
  processed : List UserObj := []
  added : List UserObj := []
deriving DecidableEq, Repr

/-- The processing loop of SubAccount.updateSubAccount
(sub.account/index.js lines 363-463).  For each entry: resolve its
credentials; keep (without any write) an existing sub user with the same
pair; skip a pair equal to the master's or one already processed this
call; otherwise sign a new sub user up and insert its link row.  A
property access on an absent master user raises a TypeError. -/
def updLoop (env : Env) (saPwd : Option String) (saId : Option Int)
    (masterOpt : Option UserObj) (subUsers : List UserObj) :
    List AuthEntry → UpdateSt → List Eff × Except Err UpdateSt
  | [], st => ([], .ok st)
  | e :: rest, st =>
    let checked := truthy e.email || truthy e.token
    let (tr0, authRes) := resolveEntry env e
    match authRes with
    | .error err => (tr0, .error err)
    | .ok auth =>
      let existed := subUsers.find? (fun su =>
        auth.apiKey == su.apiKey && auth.apiSecret == su.apiSecret)
      match masterOpt with
      | none => (tr0, .error .typeError)
      | some master =>
        let skiped :=
          existed.isSome ||
            (master.apiKey == auth.apiKey &&
              master.apiSecret == auth.apiSecret) ||
            st.processed.any (fun item =>
              auth.apiKey == item.apiKey && auth.apiSecret == item.apiSecret)
        if skiped then
          let st' : UpdateSt :=
            match existed with
            | some ex => { st with processed := st.processed ++ [ex] }
            | none => st
          let (trR, r) := updLoop env saPwd saId masterOpt subUsers rest st'
          (tr0 ++ trR, r)
        else
          match env.signUpSub auth saPwd master.id checked with
          | .error err =>
            (tr0 ++ [.signUpSubCall auth.apiKey auth.apiSecret], .error err)
          | .ok subUser =>
            match env.insertSubAccountRow saId subUser._id with
            | .error err =>
              (tr0 ++ [.signUpSubCall auth.apiKey auth.apiSecret,
                .insertSubAccountRow saId subUser._id], .error err)
            | .ok _ =>
              let st' : UpdateSt :=
                { processed := st.processed ++ [subUser]
                  added := st.added ++ [subUser] }
              let (trR, r) := updLoop env saPwd saId masterOpt subUsers rest st'
              (tr0 ++ [.signUpSubCall auth.apiKey auth.apiSecret,
                .insertSubAccountRow saId subUser._id] ++ trR, r)

/-- Args of updateSubAccount. -/
structure UpdateArgs where
  auth : AuthEntry := {}
  subAccountApiKeys : Option (List AuthEntry) := none
deriving DecidableEq, Repr

/-- The removal set computed after the update loop (sub.account/index.js
lines 465-470): the existing sub users whose credential pair differs from
every processed (kept or added) sub user. -/
def removingOf (subUsers processed : List UserObj) : List UserObj :=
  subUsers.filter (fun su =>
    processed.all (fun p =>
      !(p.apiKey == su.apiKey) || !(p.apiSecret == su.apiSecret)))

/-- SubAccount.updateSubAccount (sub.account/index.js lines 317-516):
sign in as the group aggregate, validate the aggregate pair and the
desired list, process the desired entries followed by the group's master
member (the existing sub user sharing the group email) through updLoop,
delete the no-longer-wanted sub users (a reported zero-change delete
raises UserRemovingError), invalidate the ledger balance-recalculation
flag when anything was added or removed, refresh the session and return
the aggregate email and token. -/
def updateSubAccount (env : Env) (args : UpdateArgs) :
    List Eff × Except Err SARes :=
  match env.signInSA args.auth with
  | .error e => ([.signInSACall], .error e)
  | .ok sa =>
    let badKeys :=
      !(env.isSAKeys sa.apiKey sa.apiSecret) ||
        (match args.subAccountApiKeys with
          | none => true
          | some ks =>
            ks.isEmpty || ks.any (fun k => env.isSAKeys k.apiKey k.apiSecret))
    if badKeys then ([.signInSACall], .error .subAccountUpdatingError)
    else
      match sa.subUsers with
      | none => ([.signInSACall], .error .typeError)
      | some subUsers =>
        let masterOpt := subUsers.find? (fun su => su.email == sa.email)
        let ks := args.subAccountApiKeys.getD []
        let entries := ks ++
          [match masterOpt with
            | some m => toAuthEntry m
            | none => {}]
        let (trL, r) := updLoop env sa.password sa._id masterOpt subUsers entries {}
        let trH := Eff.signInSACall :: trL
        match r with
        | .error e => (trH, .error e)
        | .ok st =>
          let removing := removingOf subUsers st.processed
          let remStep : List Eff × Except Err Unit :=
            if removing.length > 0 then
              match env.removeUsersRows (removing.map (·._id)) with
              | .error e =>
                ([.removeUsersRows (removing.map (·._id))], .error e)
              | .ok res =>
                if zeroChanges res then
                  ([.removeUsersRows (removing.map (·._id))],
                    .error .userRemovingError)
                else ([.removeUsersRows (removing.map (·._id))], .ok ())
            else ([], .ok ())
          match remStep with
          | (trR, .error e) => (trH ++ trR, .error e)
          | (trR, .ok _) =>
            let ledStep : List Eff × Except Err Unit :=
              if st.added.length > 0 || removing.length > 0 then
                match env.updateLedgersFlag sa._id with
                | .error e => ([.updateLedgersFlag sa._id], .error e)
                | .ok _ => ([.updateLedgersFlag sa._id], .ok ())
              else ([], .ok ())
            match ledStep with
            | (trL2, .error e) => (trH ++ trR ++ trL2, .error e)
            | (trL2, .ok _) =>
              (trH ++ trR ++ trL2 ++ [.setSession sa._id sa.email sa.token],
                .ok { email := sa.email, isSubAccount := true
                      token := sa.token })

/-- Whether a recorded call is a token verification or the decryption of
the token-embedded password (the token-path collaborators). -/
def Eff.isTokenConsult : Eff → Bool
  | .verifyJWT _ => true
  | .decryptPwd => true
  | _ => false

/-- Whether a recorded call signs a token. -/
def Eff.isSign : Eff → Bool
  | .signJWT _ _ _ => true
  | _ => false

/-- Whether a recorded call is a sub-user registration. -/
def Eff.isSignUpSub : Eff → Bool
  | .signUpSubCall _ _ => true
  | _ => false

/-- Whether a recorded call removes user rows. -/
def Eff.isRemoveRows : Eff → Bool
  | .removeUsersRows _ => true
  | _ => false

/-- Whether a recorded call invalidates the ledger recalculation flag. -/
def Eff.isLedgerFlag : Eff → Bool
  | .updateLedgersFlag _ => true
  | _ => false

/-- A concrete environment whose oracles always succeed with fixed
values; used to instantiate hypotheses of the claim theorems on concrete
inputs. -/
def env0 : Env where
  secretKey := "sk"
  getUser := fun _ _ => .ok none
  verifyJWT := fun _ => .ok {}
  decrypt := fun _ _ => .ok "pw"
  verifyPassword := fun _ _ => .ok ()
  checkAuthInApi := fun _ _ => .ok {}
  updateUsersProfile := fun _ _ _ => .ok (some ⟨1⟩)
  updateUsersActive := fun _ _ _ => .ok (some ⟨1⟩)
  generateJWT := fun _ _ _ => .ok "signed"
  encrypt := fun _ _ => .ok "enc"
  hashPassword := fun _ => .ok "hash"
  insertUsers := fun _ => .ok ()
  isSAKeys := fun _ _ => false
  verifyMaster := fun _ => .ok {}
  verifySubAuth := fun _ _ _ => .ok {}
  signUpAggregate := fun _ _ => .ok {}
  signUpSub := fun a _ _ _ => .ok { apiKey := a.apiKey, apiSecret := a.apiSecret }
  signInSA := fun _ => .ok {}
  insertSubAccountRow := fun _ _ => .ok ()
  removeUsersRows := fun _ => .ok (some ⟨1⟩)
  updateLedgersFlag := fun _ => .ok (some ⟨1⟩)

/-- C3: a verifyUser call whose auth object has neither a non-empty
string email together with a non-empty string password nor a non-empty
string jwt rejects with AuthError immediately, consulting no storage or
crypto collaborator (empty call trace); hence per call exactly the
password path or the token path can be taken, and both absent or
malformed means rejection. -/
theorem verifyUser_rejects_without_collaborators (env : Env) (a : VAuth)
    (ps : VParams)
    (hep : ¬(truthy a.email = true ∧ truthy a.password = true))
    (hj : truthy a.jwt = false) :
    verifyUser env a ps = ([], .error .authError) := by
  have h1 : (truthy a.email && truthy a.password) = false := by
    cases he : truthy a.email <;> cases hp : truthy a.password <;> simp_all
  unfold verifyUser
  simp [h1, hj]

/-- Closed instance of C3 at a fully absent auth object. -/
theorem verifyUser_rejects_without_collaborators_witness :
    verifyUser env0 {} {} = ([], .error .authError) :=
  verifyUser_rejects_without_collaborators env0 {} {} (by decide) (by decide)

/-- C7: generateAuthJWT is a three-way branch.  With a non-empty string
email it signs exactly one token — passing an already-encrypted password
blob through when present, else encrypting a supplied plaintext password
under the process secret first — and raises AuthError when neither is
present.  Without an email it returns an already-present jwt string
unchanged, and raises AuthError when no forwardable token is present
either. -/
theorem generateAuthJWT_branches (env : Env) (p : JwtGenPayload) :
    (truthy p.email = true → truthy p.encryptedPassword = true →
      generateAuthJWT env p =
        ([.signJWT p._id p.email p.encryptedPassword],
          env.generateJWT p._id p.email p.encryptedPassword)) ∧
    (truthy p.email = true → truthy p.encryptedPassword = false →
      truthy p.password = true → ∀ enc,
        env.encrypt p.password env.secretKey = .ok enc →
        generateAuthJWT env p =
          ([.encryptVal, .signJWT p._id p.email (some enc)],
            env.generateJWT p._id p.email (some enc))) ∧
    (truthy p.email = true → truthy p.encryptedPassword = false →
      truthy p.password = false →
      generateAuthJWT env p = ([], .error .authError)) ∧
    (truthy p.email = false → ∀ j, p.jwt = some j → j ≠ "" →
      generateAuthJWT env p = ([], .ok j)) ∧
    (truthy p.email = false → truthy p.jwt = false →
      generateAuthJWT env p = ([], .error .authError)) := by
  refine ⟨?_, ?_, ?_, ?_, ?_⟩
  · intro he hep
    unfold generateAuthJWT
    simp [he, hep]
  · intro he hep hpw enc henc
    unfold generateAuthJWT
    simp [he, hep, hpw, henc]
  · intro he hep hpw
    unfold generateAuthJWT
    simp [he, hep, hpw]
  · intro he j hj hne
    unfold generateAuthJWT
    simp [he, hj, hne]
  · intro he hj
    unfold generateAuthJWT
    cases hcase : p.jwt with
    | none => simp [he, hcase]
    | some j =>
      rw [hcase] at hj
      simp [truthy] at hj
      simp [he, hcase, hj]

/-- Closed instances of the five C7 branches. -/
theorem generateAuthJWT_branches_witness :
    generateAuthJWT env0 { email := some "e", encryptedPassword := some "x" } =
      ([.signJWT none (some "e") (some "x")], .ok "signed") ∧
    generateAuthJWT env0 { email := some "e", password := some "p" } =
      ([.encryptVal, .signJWT none (some "e") (some "enc")], .ok "signed") ∧
    generateAuthJWT env0 { email := some "e" } = ([], .error .authError) ∧
    generateAuthJWT env0 { jwt := some "t" } = ([], .ok "t") ∧
    generateAuthJWT env0 {} = ([], .error .authError) := by
  refine ⟨?_, ?_, ?_, ?_, ?_⟩
  · exact ((generateAuthJWT_branches env0 _).1 (by decide) (by decide)).trans rfl
  · exact ((generateAuthJWT_branches env0 _).2.1 (by decide) (by decide)
      (by decide) "enc" rfl).trans rfl
  · exact (generateAuthJWT_branches env0 _).2.2.1 (by decide) (by decide)
      (by decide)
  · exact (generateAuthJWT_branches env0 _).2.2.2.1 (by decide) "t" rfl
      (by decide)
  · exact (generateAuthJWT_branches env0 _).2.2.2.2 (by decide) (by decide)

/-- Environment in which the users table read finds a row with an
integer surrogate key. -/
def envC6a : Env :=
  { env0 with getUser := fun _ _ => .ok (some { _id := some 5 }) }

/-- Environment whose upstream lookup returns a usable email while the
users table stays empty. -/
def envC6c : Env :=
  { env0 with checkAuthInApi := fun _ _ => .ok { email := some "e@x" } }

/-- C6: createUser inserts the row and re-reads it by email; it succeeds
only when the re-read returns an object with an integer _id (so a
successful registration is independently observable as a row with an
integer surrogate key), raises AuthError when the re-read yields nothing
or a row without an integer key, and a signUp call whose createUser
re-read finds no row fails as a whole with AuthError. -/
theorem createUser_reread_integer_key (env : Env) (data : UserData) :
    (∀ u, (createUser env data).2 = .ok u →
      (∃ k, u._id = some k) ∧
      env.getUser (.byEmail data.email) { isNotSubAccount := some true } =
        .ok (some u) ∧
      (createUser env data).1 =
        [.insertUsers data.email, .getUserByEmail data.email none]) ∧
    (env.insertUsers data = .ok () →
      ∀ r, env.getUser (.byEmail data.email) { isNotSubAccount := some true } =
          .ok r →
        (r = none ∨ ∃ u, r = some u ∧ u._id = none) →
        (createUser env data).2 = .error .authError) ∧
    (∀ a pp ss prof ek es ep hsh,
      signUpCheckFails env a = false →
      env.checkAuthInApi a.apiKey a.apiSecret = .ok prof →
      truthy prof.email = true →
      env.getUser (.byEmail prof.email) { isNotSubAccount := some true } =
        .ok none →
      env.encrypt a.apiKey (a.password.getD "") = .ok ek →
      env.encrypt a.apiSecret (a.password.getD "") = .ok es →
      env.encrypt a.password env.secretKey = .ok ep →
      env.hashPassword a.password = .ok hsh →
      env.insertUsers
          { email := prof.email, timezone := prof.timezone
            username := prof.username, id := prof.id
            apiKey := some ek, apiSecret := some es
            active := pp.active, isDataFromDb := pp.isDataFromDb
            passwordHash := some hsh } = .ok () →
      (signUp env a pp ss).2 = .error .authError) := by
  refine ⟨?_, ?_, ?_⟩
  · intro u hu
    unfold createUser at hu ⊢
    cases hins : env.insertUsers data with
    | error e => simp [hins] at hu
    | ok w =>
      cases hg : env.getUser (.byEmail data.email)
          { isNotSubAccount := some true } with
      | error e => simp [hins, hg] at hu
      | ok r =>
        cases r with
        | none => simp [hins, hg] at hu
        | some v =>
          cases hid : v._id with
          | none => simp [hins, hg, hid] at hu
          | some k =>
            simp only [hins, hg, hid] at hu
            simp only [Except.ok.injEq] at hu
            subst hu
            exact ⟨⟨k, hid⟩, rfl, by simp [hid]⟩
  · intro hins r hg hr
    unfold createUser
    rw [hins, hg]
    rcases hr with h | ⟨u, hu, hid⟩
    · subst h; rfl
    · subst hu; simp [hid]
  · intro a pp ss prof ek es ep hsh hchk hapi hpe hg h1 h2 h3 h4 hins
    unfold signUp
    rw [hchk]
    simp only [Bool.false_eq_true, if_false, hapi, hg, hpe, h1, h2, h3, h4]
    unfold createUser
    rw [hins, hg]
    simp

/-- Closed instances of the three C6 conjuncts. -/
theorem createUser_reread_integer_key_witness :
    ((∃ k, ({ _id := some 5 } : DbUser)._id = some k) ∧
      envC6a.getUser (.byEmail none) { isNotSubAccount := some true } =
        .ok (some { _id := some 5 }) ∧
      (createUser envC6a {}).1 = [.insertUsers none, .getUserByEmail none none]) ∧
    (createUser env0 {}).2 = .error .authError ∧
    (signUp envC6c
      { apiKey := some "key", apiSecret := some "sec",
        password := some "aA1bbbb8" } {} []).2 = .error .authError := by
  refine ⟨?_, ?_, ?_⟩
  · exact (createUser_reread_integer_key envC6a {}).1 { _id := some 5 } rfl
  · exact (createUser_reread_integer_key env0 {}).2.1 rfl none rfl (Or.inl rfl)
  · exact (createUser_reread_integer_key envC6c {}).2.2
      { apiKey := some "key", apiSecret := some "sec",
        password := some "aA1bbbb8" } {} [] { email := some "e@x" }
      "enc" "enc" "enc" "hash" (by decide) rfl rfl rfl rfl rfl rfl rfl rfl

/-- The password path of verifyUser finishes in one of three shapes: the
user lookup fails, the password check fails after the lookup, or both
succeed; either way the trace is the email lookup optionally followed by
the hash check, and nothing else. -/
theorem verifyUser_pwd_shape (env : Env) (a : VAuth) (ps : VParams)
    (he : truthy a.email = true) (hp : truthy a.password = true) :
    (∃ e, verifyUser env a ps =
      ([.getUserByEmail a.email
          (if ps.isDecryptedApiKeys then a.password else none)],
        .error e)) ∨
    (∃ hash e, verifyUser env a ps =
      ([.getUserByEmail a.email
          (if ps.isDecryptedApiKeys then a.password else none),
        .verifyPwd hash], .error e)) ∨
    (∃ hash vu, verifyUser env a ps =
      ([.getUserByEmail a.email
          (if ps.isDecryptedApiKeys then a.password else none),
        .verifyPwd hash], .ok vu)) := by
  unfold verifyUser
  simp only [he, hp, Bool.and_self, if_true]
  rcases env.getUser (GetFilter.byEmail a.email)
      { isNotSubAccount := some (!a.isSubAccount)
        isSubAccount := some a.isSubAccount
        isFilledSubUsers := some ps.isFilledSubUsers
        password := if ps.isDecryptedApiKeys then a.password else none }
    with e | r
  · exact Or.inl ⟨e, rfl⟩
  · dsimp only
    rcases env.verifyPassword a.password (r.bind (·.passwordHash)) with e | u
    · exact Or.inr (Or.inl ⟨_, e, rfl⟩)
    · exact Or.inr (Or.inr ⟨_, _, rfl⟩)

/-- C10: when the auth object carries both a valid email/password pair
and a non-empty jwt, verifyUser takes the password path: the result is
independent of the jwt, the trace contains no token verification or
token-password decryption, the first collaborator call resolves the
identity by email, and a successful call performed a password check
against the stored hash. -/
theorem verifyUser_password_precedence (env : Env) (a : VAuth)
    (ps : VParams) (j : Option String)
    (he : truthy a.email = true) (hp : truthy a.password = true) :
    verifyUser env { a with jwt := j } ps = verifyUser env a ps ∧
    (verifyUser env a ps).1.all (fun t => !t.isTokenConsult) = true ∧
    ((verifyUser env a ps).1.head? =
      some (.getUserByEmail a.email
        (if ps.isDecryptedApiKeys then a.password else none))) ∧
    (∀ vu, (verifyUser env a ps).2 = .ok vu →
      ∃ hash, Eff.verifyPwd hash ∈ (verifyUser env a ps).1) := by
  refine ⟨?_, ?_, ?_, ?_⟩
  · unfold verifyUser
    simp [he, hp]
  · rcases verifyUser_pwd_shape env a ps he hp with
      ⟨e, h⟩ | ⟨hash, e, h⟩ | ⟨hash, vu, h⟩ <;> rw [h] <;> rfl
  · rcases verifyUser_pwd_shape env a ps he hp with
      ⟨e, h⟩ | ⟨hash, e, h⟩ | ⟨hash, vu, h⟩ <;> rw [h] <;> rfl
  · intro vu hvu
    rcases verifyUser_pwd_shape env a ps he hp with
      ⟨e, h⟩ | ⟨hash, e, h⟩ | ⟨hash, vu2, h⟩
    · rw [h] at hvu; exact absurd hvu (by simp)
    · rw [h] at hvu; exact absurd hvu (by simp)
    · exact ⟨hash, by rw [h]; simp⟩

/-- Closed instance of C10: with email, password and jwt all supplied,
the result equals the jwt-free call and no token collaborator appears in
the trace. -/
theorem verifyUser_password_precedence_witness :
    verifyUser env0
      { email := some "e", password := some "Pw1", jwt := some "x" } {} =
      verifyUser env0 { email := some "e", password := some "Pw1" } {} ∧
    (verifyUser env0 { email := some "e", password := some "Pw1" } {}).1.all
      (fun t => !t.isTokenConsult) = true := by
  have h := verifyUser_password_precedence env0
    { email := some "e", password := some "Pw1" } {} (some "x")
    (by decide) (by decide)
  exact ⟨h.1, h.2.1⟩

/-- The strength regex accepts a password exactly when it is at least 8
characters long, consists only of ASCII alphanumerics, and contains a
lowercase letter, an uppercase letter and a digit. -/
theorem isSecurePassword_iff (p : String) :
    isSecurePassword p = true ↔
      (8 ≤ p.length ∧ p.data.all isAlnumA = true ∧
        p.data.any isLowerA = true ∧ p.data.any isUpperA = true ∧
        p.data.any isDigitA = true) := by
  unfold isSecurePassword
  simp [Bool.and_eq_true, decide_eq_true_eq, and_assoc]

/-- C9 counterexample: the password aA1!!!!! has length 8 and contains a
lowercase letter, an uppercase letter and a digit — the claim's
characterization of the policy — yet signUp rejects it with AuthError
before any collaborator call, because the regex body also restricts the
alphabet to ASCII alphanumerics. -/
theorem signUp_password_policy_counterexample :
    signUp env0
      { apiKey := some "key", apiSecret := some "sec",
        password := some "aA1!!!!!" } {} [] = ([], .error .authError) ∧
    8 ≤ ("aA1!!!!!" : String).length ∧
    ("aA1!!!!!" : String).data.any isLowerA = true ∧
    ("aA1!!!!!" : String).data.any isUpperA = true ∧
    ("aA1!!!!!" : String).data.any isDigitA = true := by
  exact ⟨rfl, by decide, by decide, by decide, by decide⟩

/-- C9 (amended): with well-formed non-grouped credentials, signUp
rejects with AuthError before any collaborator call exactly when the
password fails the policy, where alongside the claim's minimum length,
lowercase, uppercase and digit requirements the policy also requires
every character to be an ASCII letter or digit; when the password meets
the full policy the static validation gate passes. -/
theorem signUp_password_policy (env : Env) (k s p : String)
    (pp : SignParams) (ss : Sessions)
    (hk : k ≠ "") (hs : s ≠ "")
    (hkeys : env.isSAKeys (some k) (some s) = false) :
    (¬(8 ≤ p.length ∧ p.data.all isAlnumA = true ∧
        p.data.any isLowerA = true ∧ p.data.any isUpperA = true ∧
        p.data.any isDigitA = true) →
      signUp env { apiKey := some k, apiSecret := some s, password := some p }
        pp ss = ([], .error .authError)) ∧
    ((8 ≤ p.length ∧ p.data.all isAlnumA = true ∧
        p.data.any isLowerA = true ∧ p.data.any isUpperA = true ∧
        p.data.any isDigitA = true) →
      signUpCheckFails env
        { apiKey := some k, apiSecret := some s, password := some p } =
        false) := by
  constructor
  · intro hchar
    have hsec : isSecurePassword p = false := by
      rcases Bool.eq_false_or_eq_true (isSecurePassword p) with h | h
      · exact absurd ((isSecurePassword_iff p).mp h) hchar
      · exact h
    unfold signUp signUpCheckFails
    simp [hsec]
  · intro hchar
    have hsec : isSecurePassword p = true := (isSecurePassword_iff p).mpr hchar
    have hp0 : ¬(p = "") := by
      intro h
      subst h
      exact absurd hchar (by decide)
    unfold signUpCheckFails
    simp [hsec, hk, hs, hp0, hkeys]

/-- Closed instances of the two C9 directions. -/
theorem signUp_password_policy_witness :
    signUp env0
      { apiKey := some "key", apiSecret := some "sec",
        password := some "short" } {} [] = ([], .error .authError) ∧
    signUpCheckFails env0
      { apiKey := some "key", apiSecret := some "sec",
        password := some "aA1bbbbb" } = false := by
  constructor
  · exact (signUp_password_policy env0 "key" "sec" "short" {} []
      (by decide) (by decide) rfl).1 (by decide)
  · exact (signUp_password_policy env0 "key" "sec" "aA1bbbbb" {} []
      (by decide) (by decide) rfl).2 (by decide)

/-- C1: every internal storage update or removal that is expected to
affect a row surfaces a reported zero-change result as an error: the
profile update in signIn and the deactivation update in signOut raise
AuthError when the storage result object reports fewer than one change,
and the sub-identity deletion in updateSubAccount raises
UserRemovingError in the same situation; none of them is treated as a
silent success. -/
theorem zero_change_storage_results_error (env : Env) :
    (∀ a pp ss tr vu prof c,
      verifyUser env a
        { isDecryptedApiKeys := true, isReturnedPassword := true } =
        (tr, .ok vu) →
      env.checkAuthInApi (vu.user.bind (·.apiKey))
        (vu.user.bind (·.apiSecret)) = .ok prof →
      env.updateUsersProfile (vu.user.bind (·._id)) (vu.user.bind (·.email))
        { id := prof.id, timezone := prof.timezone, username := prof.username
          email := prof.email, active := pp.active
          isDataFromDb := pp.isDataFromDb } = .ok (some c) →
      c.changes < 1 →
      (signIn env a pp ss).2 = .error .authError) ∧
    (∀ a act ss tr vu c,
      verifyUser env a {} = (tr, .ok vu) →
      env.updateUsersActive (vu.user.bind (·._id)) (vu.user.bind (·.email))
        act = .ok (some c) →
      c.changes < 1 →
      (signOut env a act ss).2 = .error .authError) ∧
    (∀ args sa ks subUsers trL st c,
      env.signInSA args.auth = .ok sa →
      env.isSAKeys sa.apiKey sa.apiSecret = true →
      args.subAccountApiKeys = some ks →
      ks.isEmpty = false →
      ks.any (fun x => env.isSAKeys x.apiKey x.apiSecret) = false →
      sa.subUsers = some subUsers →
      updLoop env sa.password sa._id
        (subUsers.find? (fun su => su.email == sa.email)) subUsers
        (ks ++ [match subUsers.find? (fun su => su.email == sa.email) with
          | some m => toAuthEntry m
          | none => {}]) {} = (trL, .ok st) →
      0 < (removingOf subUsers st.processed).length →
      env.removeUsersRows ((removingOf subUsers st.processed).map (·._id)) =
        .ok (some c) →
      c.changes < 1 →
      (updateSubAccount env args).2 = .error .userRemovingError) := by
  refine ⟨?_, ?_, ?_⟩
  · intro a pp ss tr vu prof c hv hapi hupd hc
    have hz : zeroChanges (some c) = true := by simp [zeroChanges, hc]
    unfold signIn
    simp only [hv, hapi, hupd, hz, if_true]
  · intro a act ss tr vu c hv hupd hc
    have hz : zeroChanges (some c) = true := by simp [zeroChanges, hc]
    unfold signOut
    simp only [hv, hupd, hz, if_true]
  · intro args sa ks subUsers trL st c hsi hsk hks hne hany hsub hloop hlen
      hrem hc
    have hz : zeroChanges (some c) = true := by simp [zeroChanges, hc]
    unfold updateSubAccount
    simp only [hsi, hks, hsk, hsub, Option.getD_some, hne, hany,
      Bool.not_true, Bool.false_or, Bool.or_false, Bool.or_self,
      Bool.false_eq_true, if_false, hloop]
    rw [if_pos hlen, hrem]
    simp only [hz, if_true]

/-- Environment whose users-profile update reports zero changes. -/
def envC1a : Env :=
  { env0 with updateUsersProfile := fun _ _ _ => .ok (some ⟨0⟩) }

/-- Environment whose deactivation update reports zero changes. -/
def envC1b : Env :=
  { env0 with updateUsersActive := fun _ _ _ => .ok (some ⟨0⟩) }

/-- The master member of the concrete sub-account group. -/
def mSUc : UserObj :=
  { _id := some 2, id := some 21, email := some "m@x",
    apiKey := some "mk", apiSecret := some "ms" }

/-- A previously linked sub user that the concrete update drops. -/
def oldSUc : UserObj :=
  { _id := some 3, id := some 31, email := some "o@x",
    apiKey := some "okk", apiSecret := some "oss" }

/-- The signed-in group aggregate of the concrete update scenario. -/
def saC1 : SAUser :=
  { _id := some 1, email := some "m@x", apiKey := some "GK",
    apiSecret := some "GS", password := some "vp", token := some "tk",
    subUsers := some [mSUc, oldSUc] }

/-- Environment for the concrete updateSubAccount scenario: the group
aggregate signs in with grouped-looking keys, the master entry resolves
to the master member's credentials, and the removal reports zero
changes. -/
def envC1c : Env :=
  { env0 with
    signInSA := fun _ => .ok saC1
    isSAKeys := fun k _ => k == some "GK"
    removeUsersRows := fun _ => .ok (some ⟨0⟩)
    verifySubAuth := fun e _ _ =>
      .ok { email := e, apiKey := some "mk", apiSecret := some "ms" } }

/-- Desired list of the concrete update scenario: one new raw pair. -/
def argsC1 : UpdateArgs :=
  { auth := {},
    subAccountApiKeys := some [{ apiKey := some "bk", apiSecret := some "bs" }] }

/-- Closed instances of the three C1 conjuncts. -/
theorem zero_change_storage_results_error_witness :
    (signIn envC1a { email := some "e", password := some "P" } {} []).2 =
      .error .authError ∧
    (signOut envC1b { email := some "e", password := some "P" } false []).2 =
      .error .authError ∧
    (updateSubAccount envC1c argsC1).2 = .error .userRemovingError := by
  refine ⟨?_, ?_, ?_⟩
  · exact (zero_change_storage_results_error envC1a).1
      { email := some "e", password := some "P" } {} []
      [.getUserByEmail (some "e") (some "P"), .verifyPwd none]
      { user := none, password := some "P" } {} ⟨0⟩ rfl rfl rfl (by decide)
  · exact (zero_change_storage_results_error envC1b).2.1
      { email := some "e", password := some "P" } false []
      [.getUserByEmail (some "e") none, .verifyPwd none]
      { user := none, password := none } ⟨0⟩ rfl rfl (by decide)
  · exact (zero_change_storage_results_error envC1c).2.2 argsC1 saC1
      [{ apiKey := some "bk", apiSecret := some "bs" }] [mSUc, oldSUc]
      [.signUpSubCall (some "bk") (some "bs"),
        .insertSubAccountRow (some 1) none,
        .verifySubAuthCall (some "m@x") none]
      { processed := [{ apiKey := some "bk", apiSecret := some "bs" }, mSUc]
        added := [{ apiKey := some "bk", apiSecret := some "bs" }] }
      ⟨0⟩ rfl rfl rfl rfl rfl rfl rfl (by decide) rfl (by decide)

/-- The stored identity row used by the concrete signIn scenarios. -/
def u0C8 : DbUser :=
  { _id := some 7, email := some "a@x", apiKey := some "k1",
    apiSecret := some "s1", passwordHash := some "h" }

/-- Environment for the concrete signIn scenarios: the stored row u0C8 is
always found, tokens verify to its payload, the upstream profile carries
the same email as the stored row, and signing produces FRESH. -/
def envC8 : Env :=
  { env0 with
    getUser := fun _ _ => .ok (some u0C8)
    verifyJWT := fun _ =>
      .ok { _id := some 7, email := some "a@x",
            encryptedPassword := some "encp" }
    checkAuthInApi := fun _ _ =>
      .ok { id := some 9, timezone := some "tz", username := some "un",
            email := some "a@x" }
    generateJWT := fun _ _ _ => .ok "FRESH" }

/-- C8 counterexample: a successful token-based signIn whose upstream
email equals the stored one returns the supplied token tok0 unchanged —
the session entry holds tok0 and no token-signing call appears in the
trace — refuting the claim that after every successful signIn the
returned jwt is a newly signed token. -/
theorem signIn_token_reissue_counterexample :
    (signIn envC8 { jwt := some "tok0" } {} []).2 =
      .ok ({ email := some "a@x", isSubAccount := some false, jwt := "tok0" },
        [(some 7, { _id := some 7, email := some "a@x", jwt := some "tok0" })]) ∧
    (signIn envC8 { jwt := some "tok0" } {} []).1.all
      (fun t => !t.isSign) = true ∧
    envC8.generateJWT (some 7) (some "a@x") (some "encp") = .ok "FRESH" :=
  ⟨rfl, rfl, rfl⟩

/-- C8 (amended): after every successful signIn the users row is patched
with the freshly fetched upstream profile fields (external id, timezone,
username, email), the session cache entry for the identity holds the
upstream email together with the returned token, and the returned token
is the result of generateAuthJWT on the refreshed payload — newly signed
whenever a usable fresh email is present (the caller supplied an email or
the upstream email differs from the stored one), and the caller's own
supplied token passed through unchanged otherwise. -/
theorem signIn_refresh (env : Env) (a : VAuth) (pp : SignParams)
    (ss : Sessions) (tr : List Eff) (vu : VUser) (prof : ApiProfile)
    (res : Option Changes) (trJ : List Eff) (resJWT : String)
    (patch : ProfilePatch)
    (hv : verifyUser env a
      { isDecryptedApiKeys := true, isReturnedPassword := true } =
      (tr, .ok vu))
    (hapi : env.checkAuthInApi (vu.user.bind (·.apiKey))
      (vu.user.bind (·.apiSecret)) = .ok prof)
    (hpatch : patch =
      { id := prof.id, timezone := prof.timezone, username := prof.username
        email := prof.email, active := pp.active
        isDataFromDb := pp.isDataFromDb })
    (hupd : env.updateUsersProfile (vu.user.bind (·._id))
      (vu.user.bind (·.email)) patch = .ok res)
    (hnz : zeroChanges res = false)
    (hjwt : generateAuthJWT env
      { _id := vu.user.bind (·._id)
        email := if truthy a.email ||
            !(prof.email == vu.user.bind (·.email)) then prof.email else none
        password := vu.password, jwt := a.jwt } = (trJ, .ok resJWT)) :
    signIn env a pp ss =
      (tr ++ [.checkAuthInApi (vu.user.bind (·.apiKey))
          (vu.user.bind (·.apiSecret)),
        .updateUsersProfile (vu.user.bind (·._id)) patch] ++
        (trJ ++ [.setSession (vu.user.bind (·._id)) prof.email (some resJWT)]),
        .ok ({ email := prof.email
               isSubAccount := vu.user.map (·.isSubAccount), jwt := resJWT },
          setSession ss
            { _id := vu.user.bind (·._id), email := prof.email
              jwt := some resJWT })) ∧
    (truthy a.email = false → prof.email = vu.user.bind (·.email) →
      ∀ j, a.jwt = some j → j ≠ "" → resJWT = j) ∧
    (truthy (if truthy a.email ||
        !(prof.email == vu.user.bind (·.email)) then prof.email else none) =
        true →
      trJ.any Eff.isSign = true) := by
  subst hpatch
  refine ⟨?_, ?_, ?_⟩
  · unfold signIn
    simp only [hv, hapi, hupd, hnz, Bool.false_eq_true, if_false, hjwt,
      List.append_assoc]
  · intro hea heq j hj hjne
    rw [hea] at hjwt
    have hcond : (prof.email == vu.user.bind (·.email)) = true := by
      rw [heq]; exact beq_self_eq_true _
    rw [hcond] at hjwt
    unfold generateAuthJWT at hjwt
    simp only [Bool.false_or, Bool.not_true, Bool.false_eq_true, if_false,
      truthy, hj] at hjwt
    simp only [hjne, if_neg, ite_false, beq_iff_eq, if_false] at hjwt
    injection hjwt with h1 h2
    injection h2 with h3
    exact h3.symm
  · intro hfe
    unfold generateAuthJWT at hjwt
    simp only [hfe, if_true] at hjwt
    have henc : truthy (none : Option String) = false := rfl
    rw [henc] at hjwt
    simp only [Bool.false_eq_true, if_false] at hjwt
    cases hpw : truthy vu.password with
    | false => rw [hpw] at hjwt; simp at hjwt
    | true =>
      rw [hpw] at hjwt
      simp only [if_true] at hjwt
      cases hev : env.encrypt vu.password env.secretKey with
      | error e => rw [hev] at hjwt; simp at hjwt
      | ok enc =>
        rw [hev] at hjwt
        have htr : trJ = [.encryptVal,
            .signJWT (vu.user.bind (·._id))
              (if truthy a.email ||
                !(prof.email == vu.user.bind (·.email)) then prof.email
               else none) (some enc)] := by
          have := congrArg Prod.fst hjwt
          simpa using this.symm
        rw [htr]
        rfl

/-- Closed instance of the amended C8 on an email/password signIn: the
returned token is the freshly signed FRESH and the session holds it with
the upstream email. -/
theorem signIn_refresh_witness :
    (signIn envC8 { email := some "a@x", password := some "pw" } {} []).2 =
      .ok ({ email := some "a@x", isSubAccount := some false, jwt := "FRESH" },
        [(some 7, { _id := some 7, email := some "a@x",
                    jwt := some "FRESH" })]) ∧
    (signIn envC8 { email := some "a@x", password := some "pw" } {} []).1.any
      Eff.isSign = true := by
  have h := signIn_refresh envC8 { email := some "a@x", password := some "pw" }
    {} [] [.getUserByEmail (some "a@x") (some "pw"), .verifyPwd (some "h")]
    { user := some u0C8, password := some "pw" }
    { id := some 9, timezone := some "tz", username := some "un",
      email := some "a@x" }
    (some ⟨1⟩)
    [.encryptVal, .signJWT (some 7) (some "a@x") (some "enc")] "FRESH"
    { id := some 9, timezone := some "tz", username := some "un",
      email := some "a@x", active := true, isDataFromDb := true }
    rfl rfl rfl rfl rfl rfl
  rw [h.1]
  exact ⟨rfl, rfl⟩

/-- C2: createSubAccount rejects every attempt to form a group whose
only member would be the master itself.  A non-array or empty desired
list is rejected with the group-creation error right after master
verification, before any write; and inside the processing loop, when the
last entry resolves to the master's own credentials, a sub user with the
master's credentials was already registered earlier in the loop, and
exactly one sub user has been registered so far, the whole transaction is
rejected with the group-creation error. -/
theorem createSubAccount_master_only_guard :
    (∀ env args m, env.verifyMaster args.auth = .ok m →
      (args.subAccountApiKeys = none ∨ args.subAccountApiKeys = some []) →
      createSubAccount env args =
        ([.verifyMasterCall], .error .subAccountCreatingError) ∧
      [Eff.verifyMasterCall].all (fun t => !t.isWrite) = true) ∧
    (∀ env master vaultPwd aggId e rest st auth trE,
      resolveEntry env e = (trE, .ok auth) →
      st.isSubUserFromMasterCreated = true →
      master.apiKey = auth.apiKey → master.apiSecret = auth.apiSecret →
      st.subUsers.length = 1 →
      (createLoop env master vaultPwd aggId (st.count + 1) (e :: rest) st).2 =
        .error .subAccountCreatingError) := by
  constructor
  · intro env args m hm hks
    constructor
    · unfold createSubAccount
      rcases hks with h | h <;> simp [hm, h]
    · decide
  · intro env master vaultPwd aggId e rest st auth trE hres hflag hk hs hlen
    simp only [createLoop, hres, hflag, hk, hs, hlen, beq_self_eq_true,
      Bool.true_and, Bool.and_self, Bool.and_true, if_true]

/-- Closed instances of the two C2 conjuncts. -/
theorem createSubAccount_master_only_guard_witness :
    createSubAccount env0 { auth := {}, subAccountApiKeys := none } =
      ([.verifyMasterCall], .error .subAccountCreatingError) ∧
    (createLoop env0 { apiKey := some "mk", apiSecret := some "ms" } none none
      1 [{ apiKey := some "mk", apiSecret := some "ms" }]
      { subUsers := [{ apiKey := some "mk", apiSecret := some "ms" }]
        isSubUserFromMasterCreated := true, count := 0 }).2 =
      .error .subAccountCreatingError := by
  constructor
  · exact (createSubAccount_master_only_guard.1 env0
      { auth := {}, subAccountApiKeys := none } {} rfl (Or.inl rfl)).1
  · exact createSubAccount_master_only_guard.2 env0
      { apiKey := some "mk", apiSecret := some "ms" } none none
      { apiKey := some "mk", apiSecret := some "ms" } []
      { subUsers := [{ apiKey := some "mk", apiSecret := some "ms" }]
        isSubUserFromMasterCreated := true, count := 0 }
      { apiKey := some "mk", apiSecret := some "ms" } [] rfl rfl rfl rfl rfl

/-- C4: entries of the createSubAccount loop whose resolved credential
pair matches an already registered sub user are skipped — the entry
contributes no write, no new sub user and no link row, only its
resolution trace — and consequently a desired list [credA, credA]
registers exactly one sub identity for credA: the concrete three-entry
run (the two copies of credA followed by the master) performs exactly one
sub-user registration carrying credA. -/
theorem createSubAccount_dedup :
    (∀ env master vaultPwd aggId total e rest st auth trE,
      resolveEntry env e = (trE, .ok auth) →
      st.subUsers.any (fun item =>
        auth.apiKey == item.apiKey &&
          auth.apiSecret == item.apiSecret) = true →
      (total == st.count + 1 && st.isSubUserFromMasterCreated &&
        master.apiKey == auth.apiKey && master.apiSecret == auth.apiSecret &&
        st.subUsers.length == 1) = false →
      createLoop env master vaultPwd aggId total (e :: rest) st =
        (trE ++ (createLoop env master vaultPwd aggId total rest
          { st with count := st.count + 1 }).1,
         (createLoop env master vaultPwd aggId total rest
          { st with count := st.count + 1 }).2) ∧
      trE.all (fun t => !t.isWrite) = true) ∧
    (∀ env master vaultPwd aggId kA sA authM uA uM,
      (master.apiKey == some kA && master.apiSecret == some sA) = false →
      truthy master.email = true →
      env.verifySubAuth master.email master.password master.token =
        .ok authM →
      authM.apiKey = master.apiKey → authM.apiSecret = master.apiSecret →
      env.signUpSub { apiKey := some kA, apiSecret := some sA } vaultPwd
        master.id false = .ok uA →
      uA.apiKey = some kA → uA.apiSecret = some sA →
      env.insertSubAccountRow aggId uA._id = .ok () →
      env.signUpSub authM vaultPwd master.id true = .ok uM →
      uM.apiKey = master.apiKey → uM.apiSecret = master.apiSecret →
      env.insertSubAccountRow aggId uM._id = .ok () →
      createLoop env master vaultPwd aggId 3
        [{ apiKey := some kA, apiSecret := some sA },
          { apiKey := some kA, apiSecret := some sA }, toAuthEntry master]
        {} =
        ([.signUpSubCall (some kA) (some sA),
          .insertSubAccountRow aggId uA._id,
          .verifySubAuthCall master.email master.token,
          .signUpSubCall authM.apiKey authM.apiSecret,
          .insertSubAccountRow aggId uM._id],
         .ok { subUsers := [uA, uM], isSubUserFromMasterCreated := true
               count := 3 }) ∧
      List.countP (fun t => t == Eff.signUpSubCall (some kA) (some sA))
        [Eff.signUpSubCall (some kA) (some sA),
          .insertSubAccountRow aggId uA._id,
          .verifySubAuthCall master.email master.token,
          .signUpSubCall authM.apiKey authM.apiSecret,
          .insertSubAccountRow aggId uM._id] = 1) := by
  constructor
  · intro env master vaultPwd aggId total e rest st auth trE hres hskip
      hguard
    constructor
    · simp only [createLoop, hres, hguard, hskip, Bool.false_eq_true,
        if_false, if_true]
    · unfold resolveEntry at hres
      by_cases hc : (truthy e.email || truthy e.token) = true
      · rw [if_pos hc] at hres
        injection hres with h1 h2
        rw [← h1]
        rfl
      · rw [if_neg hc] at hres
        injection hres with h1 h2
        rw [← h1]
        rfl
  · intro env master vaultPwd aggId kA sA authM uA uM hmna hme hresM hA1 hA2
      hsuA huA1 huA2 hinsA hsuM huM1 huM2 hinsM
    have hneM : (Eff.signUpSubCall authM.apiKey authM.apiSecret ==
        Eff.signUpSubCall (some kA) (some sA)) = false := by
      rw [hA1, hA2]
      rcases Bool.and_eq_false_iff.mp hmna with hx | hx
      · simp only [beq_eq_false_iff_ne, ne_eq, Eff.signUpSubCall.injEq,
          not_and]
        intro h1
        exact absurd h1 (by simpa using hx)
      · simp only [beq_eq_false_iff_ne, ne_eq, Eff.signUpSubCall.injEq,
          not_and]
        intro h1 h2
        exact absurd h2 (by simpa using hx)
    constructor
    · have ht1 : truthy (none : Option String) = false := rfl
      simp [createLoop, resolveEntry, toAuthEntry, ht1, hme, hresM, hsuA,
        hinsA, hsuM, hinsM, huA1, huA2, huM1, huM2, hA1, hA2, hmna]
    · simp only [List.countP_cons, List.countP_nil, hneM, beq_self_eq_true,
        if_true, if_false, Bool.false_eq_true]
      simp

/-- The master user of the concrete de-duplication scenario. -/
def masterW : UserObj :=
  { id := some 9, email := some "m@x", apiKey := some "MK",
    apiSecret := some "MS", password := some "mpw" }

/-- Environment of the concrete de-duplication scenario: the master's
entry resolves to the master's credentials, and registrations echo the
credentials they were handed. -/
def env4 : Env :=
  { env0 with
    verifySubAuth := fun e _ _ =>
      .ok { email := e, apiKey := some "MK", apiSecret := some "MS" } }

/-- The resolved master entry of the concrete scenario. -/
def authMW : UserObj :=
  { email := some "m@x", apiKey := some "MK", apiSecret := some "MS" }

/-- Closed instances of the two C4 conjuncts: a duplicate entry is
skipped without changing the registered set, and the run on
[credA, credA] performs exactly one registration carrying credA. -/
theorem createSubAccount_dedup_witness :
    createLoop env0 {} none none 5
      [{ apiKey := some "a", apiSecret := some "b" }]
      { subUsers := [{ apiKey := some "a", apiSecret := some "b" }]
        isSubUserFromMasterCreated := false, count := 0 } =
      ([], .ok { subUsers := [{ apiKey := some "a", apiSecret := some "b" }]
                 isSubUserFromMasterCreated := false, count := 1 }) ∧
    (createLoop env4 masterW none (some 70) 3
      [{ apiKey := some "a", apiSecret := some "b" },
        { apiKey := some "a", apiSecret := some "b" }, toAuthEntry masterW]
      {}).1.countP
      (fun t => t == Eff.signUpSubCall (some "a") (some "b")) = 1 := by
  constructor
  · have h := (createSubAccount_dedup.1 env0 {} none none 5
      { apiKey := some "a", apiSecret := some "b" } []
      { subUsers := [{ apiKey := some "a", apiSecret := some "b" }]
        isSubUserFromMasterCreated := false, count := 0 }
      { apiKey := some "a", apiSecret := some "b" } [] rfl (by decide)
      (by decide)).1
    exact h.trans rfl
  · have h := createSubAccount_dedup.2 env4 masterW none (some 70) "a" "b"
      authMW { apiKey := some "a", apiSecret := some "b" }
      { apiKey := some "MK", apiSecret := some "MS" }
      (by decide) (by decide) (by rfl) (by rfl) (by rfl) (by rfl) (by rfl)
      (by rfl) (by rfl) (by rfl) (by rfl) (by rfl) (by rfl)
    rw [h.1]
    exact h.2

/-- C5: for an updateSubAccount call whose desired list drops exactly one
previously linked sub user and adds exactly one new credential pair,
exactly one sub-identity row is removed and exactly one new sub user
(with its link row) is created, the removed set is exactly the existing
sub users whose pair matches no kept-or-added entry, and the ledger
balance-recalculation flag is invalidated exactly once; a removal whose
result reports zero changes aborts with UserRemovingError; and a call
that adds and removes nothing performs no removal and never touches the
ledger flag. -/
theorem updateSubAccount_diff :
    (∀ env args sa mSU oldSU kC sC uC authM c1 r2,
      env.signInSA args.auth = .ok sa →
      env.isSAKeys sa.apiKey sa.apiSecret = true →
      args.subAccountApiKeys =
        some [{ apiKey := some kC, apiSecret := some sC }] →
      env.isSAKeys (some kC) (some sC) = false →
      sa.subUsers = some [mSU, oldSU] →
      (mSU.email == sa.email) = true →
      truthy mSU.email = true →
      (some kC == mSU.apiKey && some sC == mSU.apiSecret) = false →
      (mSU.apiKey == some kC && mSU.apiSecret == some sC) = false →
      (some kC == oldSU.apiKey && some sC == oldSU.apiSecret) = false →
      (mSU.apiKey == oldSU.apiKey && mSU.apiSecret == oldSU.apiSecret) =
        false →
      env.signUpSub { apiKey := some kC, apiSecret := some sC } sa.password
        mSU.id false = .ok uC →
      uC.apiKey = some kC → uC.apiSecret = some sC →
      env.insertSubAccountRow sa._id uC._id = .ok () →
      env.verifySubAuth mSU.email mSU.password mSU.token = .ok authM →
      authM.apiKey = mSU.apiKey → authM.apiSecret = mSU.apiSecret →
      env.removeUsersRows [oldSU._id] = .ok (some c1) →
      zeroChanges (some c1) = false →
      env.updateLedgersFlag sa._id = .ok r2 →
      updateSubAccount env args =
        ([.signInSACall, .signUpSubCall (some kC) (some sC),
          .insertSubAccountRow sa._id uC._id,
          .verifySubAuthCall mSU.email mSU.token,
          .removeUsersRows [oldSU._id], .updateLedgersFlag sa._id,
          .setSession sa._id sa.email sa.token],
          .ok { email := sa.email, isSubAccount := true
                token := sa.token }) ∧
      removingOf [mSU, oldSU] [uC, mSU] = [oldSU] ∧
      List.countP Eff.isRemoveRows
        [Eff.signInSACall, .signUpSubCall (some kC) (some sC),
          .insertSubAccountRow sa._id uC._id,
          .verifySubAuthCall mSU.email mSU.token,
          .removeUsersRows [oldSU._id], .updateLedgersFlag sa._id,
          .setSession sa._id sa.email sa.token] = 1 ∧
      List.countP Eff.isSignUpSub
        [Eff.signInSACall, .signUpSubCall (some kC) (some sC),
          .insertSubAccountRow sa._id uC._id,
          .verifySubAuthCall mSU.email mSU.token,
          .removeUsersRows [oldSU._id], .updateLedgersFlag sa._id,
          .setSession sa._id sa.email sa.token] = 1 ∧
      List.countP Eff.isLedgerFlag
        [Eff.signInSACall, .signUpSubCall (some kC) (some sC),
          .insertSubAccountRow sa._id uC._id,
          .verifySubAuthCall mSU.email mSU.token,
          .removeUsersRows [oldSU._id], .updateLedgersFlag sa._id,
          .setSession sa._id sa.email sa.token] = 1) ∧
    (∀ env args sa mSU oldSU kC sC uC authM c1,
      env.signInSA args.auth = .ok sa →
      env.isSAKeys sa.apiKey sa.apiSecret = true →
      args.subAccountApiKeys =
        some [{ apiKey := some kC, apiSecret := some sC }] →
      env.isSAKeys (some kC) (some sC) = false →
      sa.subUsers = some [mSU, oldSU] →
      (mSU.email == sa.email) = true →
      truthy mSU.email = true →
      (some kC == mSU.apiKey && some sC == mSU.apiSecret) = false →
      (mSU.apiKey == some kC && mSU.apiSecret == some sC) = false →
      (some kC == oldSU.apiKey && some sC == oldSU.apiSecret) = false →
      (mSU.apiKey == oldSU.apiKey && mSU.apiSecret == oldSU.apiSecret) =
        false →
      env.signUpSub { apiKey := some kC, apiSecret := some sC } sa.password
        mSU.id false = .ok uC →
      uC.apiKey = some kC → uC.apiSecret = some sC →
      env.insertSubAccountRow sa._id uC._id = .ok () →
      env.verifySubAuth mSU.email mSU.password mSU.token = .ok authM →
      authM.apiKey = mSU.apiKey → authM.apiSecret = mSU.apiSecret →
      env.removeUsersRows [oldSU._id] = .ok (some c1) →
      zeroChanges (some c1) = true →
      (updateSubAccount env args).2 = .error .userRemovingError) ∧
    (∀ env args sa mSU oldSU kO sO authM,
      env.signInSA args.auth = .ok sa →
      env.isSAKeys sa.apiKey sa.apiSecret = true →
      args.subAccountApiKeys =
        some [{ apiKey := some kO, apiSecret := some sO }] →
      env.isSAKeys (some kO) (some sO) = false →
      sa.subUsers = some [mSU, oldSU] →
      (mSU.email == sa.email) = true →
      truthy mSU.email = true →
      oldSU.apiKey = some kO → oldSU.apiSecret = some sO →
      (some kO == mSU.apiKey && some sO == mSU.apiSecret) = false →
      (oldSU.apiKey == mSU.apiKey && oldSU.apiSecret == mSU.apiSecret) =
        false →
      env.verifySubAuth mSU.email mSU.password mSU.token = .ok authM →
      authM.apiKey = mSU.apiKey → authM.apiSecret = mSU.apiSecret →
      updateSubAccount env args =
        ([.signInSACall, .verifySubAuthCall mSU.email mSU.token,
          .setSession sa._id sa.email sa.token],
          .ok { email := sa.email, isSubAccount := true
                token := sa.token }) ∧
      removingOf [mSU, oldSU] [oldSU, mSU] = [] ∧
      List.countP Eff.isRemoveRows
        [Eff.signInSACall, .verifySubAuthCall mSU.email mSU.token,
          .setSession sa._id sa.email sa.token] = 0 ∧
      List.countP Eff.isLedgerFlag
        [Eff.signInSACall, .verifySubAuthCall mSU.email mSU.token,
          .setSession sa._id sa.email sa.token] = 0) := by
  refine ⟨?_, ?_, ?_⟩
  · intro env args sa mSU oldSU kC sC uC authM c1 r2 hsi hsk hks hkC hsub
      hmfind hme hd1a hd1b hd2a hd3 hsuC huC1 huC2 hinsC hresM hA1 hA2 hrem
      hz hled
    have ht1 : truthy (none : Option String) = false := rfl
    refine ⟨?_, ?_, rfl, rfl, rfl⟩
    · simp [updateSubAccount, updLoop, resolveEntry, toAuthEntry,
        List.find?, removingOf, ht1, hsi, hsk, hks, hkC, hsub, hmfind, hme,
        hd1a, hd1b, hd2a, hd3, hsuC, huC1, huC2, hinsC, hresM, hA1, hA2,
        hrem, hz, hled, ← Bool.not_and]
    · simp [removingOf, huC1, huC2, ← Bool.not_and, hd1a, hd2a, hd3]
  · intro env args sa mSU oldSU kC sC uC authM c1 hsi hsk hks hkC hsub
      hmfind hme hd1a hd1b hd2a hd3 hsuC huC1 huC2 hinsC hresM hA1 hA2 hrem
      hz
    have ht1 : truthy (none : Option String) = false := rfl
    simp [updateSubAccount, updLoop, resolveEntry, toAuthEntry,
      List.find?, removingOf, ht1, hsi, hsk, hks, hkC, hsub, hmfind, hme,
      hd1a, hd1b, hd2a, hd3, hsuC, huC1, huC2, hinsC, hresM, hA1, hA2,
      hrem, hz, ← Bool.not_and]
  · intro env args sa mSU oldSU kO sO authM hsi hsk hks hkO hsub hmfind hme
      hO1 hO2 hd1a hd4 hresM hA1 hA2
    have ht1 : truthy (none : Option String) = false := rfl
    refine ⟨?_, ?_, rfl, rfl⟩
    · simp [updateSubAccount, updLoop, resolveEntry, toAuthEntry,
        List.find?, removingOf, ht1, hsi, hsk, hks, hkO, hsub, hmfind, hme,
        hO1, hO2, hd1a, hd4, hresM, hA1, hA2, ← Bool.not_and]
    · simp [removingOf, hO1, hO2, ← Bool.not_and, hd1a, hd4]

/-- Master member of the concrete C5 group. -/
def mSU5 : UserObj :=
  { _id := some 2, id := some 21, email := some "m@x",
    apiKey := some "mk", apiSecret := some "ms" }

/-- The sub user dropped by the concrete C5 update. -/
def oldSU5 : UserObj :=
  { _id := some 3, id := some 31, email := some "o@x",
    apiKey := some "okk", apiSecret := some "oss" }

/-- The signed-in group aggregate of the concrete C5 scenarios. -/
def saC5 : SAUser :=
  { _id := some 1, email := some "m@x", apiKey := some "GK",
    apiSecret := some "GS", password := some "vp", token := some "tk",
    subUsers := some [mSU5, oldSU5] }

/-- Resolved master entry of the concrete C5 scenarios. -/
def authM5 : UserObj :=
  { email := some "m@x", apiKey := some "mk", apiSecret := some "ms" }

/-- Environment of the concrete C5 scenarios. -/
def envC5 : Env :=
  { env0 with
    signInSA := fun _ => .ok saC5
    isSAKeys := fun k _ => k == some "GK"
    verifySubAuth := fun e _ _ =>
      .ok { email := e, apiKey := some "mk", apiSecret := some "ms" } }

/-- Variant of envC5 whose removal reports zero changes. -/
def envC5b : Env :=
  { envC5 with removeUsersRows := fun _ => .ok (some ⟨0⟩) }

/-- Desired list dropping oldSU5 and adding the pair (ck, cs). -/
def argsC5a : UpdateArgs :=
  { auth := {},
    subAccountApiKeys := some [{ apiKey := some "ck", apiSecret := some "cs" }] }

/-- Desired list keeping exactly the existing sub user oldSU5. -/
def argsC5c : UpdateArgs :=
  { auth := {},
    subAccountApiKeys :=
      some [{ apiKey := some "okk", apiSecret := some "oss" }] }

/-- Closed instances of the three C5 conjuncts. -/
theorem updateSubAccount_diff_witness :
    (updateSubAccount envC5 argsC5a).2 =
      .ok { email := some "m@x", isSubAccount := true, token := some "tk" } ∧
    (updateSubAccount envC5 argsC5a).1.countP Eff.isRemoveRows = 1 ∧
    (updateSubAccount envC5 argsC5a).1.countP Eff.isSignUpSub = 1 ∧
    (updateSubAccount envC5 argsC5a).1.countP Eff.isLedgerFlag = 1 ∧
    (updateSubAccount envC5b argsC5a).2 = .error .userRemovingError ∧
    (updateSubAccount envC5 argsC5c).1.countP Eff.isRemoveRows = 0 ∧
    (updateSubAccount envC5 argsC5c).1.countP Eff.isLedgerFlag = 0 := by
  have hA := updateSubAccount_diff.1 envC5 argsC5a saC5 mSU5 oldSU5 "ck" "cs"
    { apiKey := some "ck", apiSecret := some "cs" } authM5 ⟨1⟩ (some ⟨1⟩)
    (by rfl) (by rfl) (by rfl) (by rfl) (by rfl) (by rfl) (by rfl)
    (by decide) (by decide) (by decide) (by decide) (by rfl) (by rfl)
    (by rfl) (by rfl) (by rfl) (by rfl) (by rfl) (by rfl) (by decide)
    (by rfl)
  have hB := updateSubAccount_diff.2.1 envC5b argsC5a saC5 mSU5 oldSU5 "ck"
    "cs" { apiKey := some "ck", apiSecret := some "cs" } authM5 ⟨0⟩
    (by rfl) (by rfl) (by rfl) (by rfl) (by rfl) (by rfl) (by rfl)
    (by decide) (by decide) (by decide) (by decide) (by rfl) (by rfl)
    (by rfl) (by rfl) (by rfl) (by rfl) (by rfl) (by rfl) (by decide)
  have hC := updateSubAccount_diff.2.2 envC5 argsC5c saC5 mSU5 oldSU5 "okk"
    "oss" authM5
    (by rfl) (by rfl) (by rfl) (by rfl) (by rfl) (by rfl) (by rfl)
    (by rfl) (by rfl) (by decide) (by decide) (by rfl) (by rfl) (by rfl)
  refine ⟨?_, ?_, ?_, ?_, hB, ?_, ?_⟩
  · rw [hA.1]; rfl
  · rw [hA.1]; rfl
  · rw [hA.1]; rfl
  · rw [hA.1]; rfl
  · rw [hC.1]; rfl
  · rw [hC.1]; rfl

end BRF
